import Mathlib

/-!
Verification of the GER30 backtest engine in
"src/Strategy_1/backtest/mq4_backtest.py" (the primary engine) together with
the parts of "src/Strategy_1/backtest/v2/mq4_backtest_v3.py" that the claims
cite.  Prices are modelled as rationals; timestamps as whole minutes from an
arbitrary epoch, so that the calendar day is t / 1440 and the time of day is
t % 1440.  Fallible Python code (dict lookups on a missing key, calls with a
wrong arity) is modelled with Except.
-/

namespace MQ4

/-- Config constants, mq4_backtest.py lines 31-38. -/
def TOLERANCE : ℚ := 9

def GSL : ℚ := 40

def SWEEP_CLOSE : ℚ := 179

def OVERNIGHT_LIMIT : ℚ := 200

def MIDDAY_LIMIT : ℚ := 150

def TIME_CLOSE_45_69 : ℤ := 16

def TIME_CLOSE_70_PLUS : ℤ := 31

/-- RETRACTION_TABLE, lines 51-56: (min, max, skip, shift) rows. -/
def RETRACTION_TABLE : List (ℚ × ℚ × ℤ × ℚ) :=
  [(15, 299/10, 0, 18), (30, 359/10, 1, 0), (36, 459/10, 2, 0), (46, 9999, -1, 0)]

/-- DIST_LEVELS, line 58: the target-distance ladder. -/
def DIST_LEVELS : List ℚ := [45, 70, 100, 130]

/-- Day number of a minute timestamp (dt.date()). -/
def pyDay (t : ℕ) : ℕ := t / 1440

/-- Minutes into the day of a timestamp (dt.time()). -/
def pyTod (t : ℕ) : ℕ := t % 1440

/-- Hour of a timestamp (dt.hour). -/
def pyHour (t : ℕ) : ℕ := t % 1440 / 60

/-- Minute of a timestamp (dt.minute). -/
def pyMinute (t : ℕ) : ℕ := t % 60

/-- A time-of-day (h, m) in minutes. -/
def hm (h m : ℕ) : ℕ := h * 60 + m

/-- in_time_window, lines 203-210: half-open window with wrap over midnight. -/
def in_time_window (t h1 m1 h2 m2 : ℕ) : Bool :=
  let tt := pyTod t
  let st := hm h1 m1
  let ed := hm h2 m2
  if ed < st then decide (st ≤ tt) || decide (tt < ed)
  else decide (st ≤ tt) && decide (tt < ed)

/-- minutes_diff, lines 212-213 (timestamps are whole minutes, so the
floor division by 60 of the seconds is exact). -/
def minutes_diff (d1 d2 : ℕ) : ℤ := (d2 : ℤ) - (d1 : ℤ)

/-- One zone row of SESSION1_ZONES / SESSION2_ZONES, lines 66-76:
((stH, stM), (enH, enM), (fcH, fcM), zID, baseDist, noClose). -/
structure Zone where
  stH : ℕ
  stM : ℕ
  enH : ℕ
  enM : ℕ
  fcH : ℕ
  fcM : ℕ
  zID : ℕ
  baseDist : ℚ
  noClose : Bool
deriving Repr, DecidableEq

/-- SESSION1_ZONES, lines 66-71. -/
def SESSION1_ZONES : List Zone :=
  [⟨8, 16, 9, 5, 9, 31, 1, 45, true⟩,
   ⟨9, 30, 9, 45, 10, 6, 2, 45, false⟩,
   ⟨10, 15, 10, 45, 12, 31, 3, 70, false⟩,
   ⟨10, 45, 11, 45, 12, 31, 4, 45, false⟩]

/-- SESSION2_ZONES, lines 72-76. -/
def SESSION2_ZONES : List Zone :=
  [⟨14, 46, 15, 6, 17, 16, 1, 45, false⟩,
   ⟨15, 15, 15, 45, 17, 16, 2, 70, false⟩,
   ⟨15, 45, 16, 48, 17, 16, 3, 45, false⟩]

/-- SessionData, lines 79-93. -/
structure SessionData where
  name : String
  startH : ℕ
  startM : ℕ
  endH : ℕ
  endM : ℕ
  active : Bool
  dayDate : Option ℕ
  openPrice : Option ℚ
  highPrice : Option ℚ
  lowPrice : Option ℚ
  allowed : Bool
  zones : List Zone
  used : List ℕ
deriving Repr, DecidableEq

/-- Trade, lines 95-109.  The field favTime is a ghost field that is not in
the source: it records the timestamp of the latest favorable extreme (the
notion used by the specification for the time-decay rule), while the
source only stores peakTime, which is refreshed on extremes of either
direction.  favTime is never read by the engine. -/
structure Trade where
  direction : String
  entry : ℚ
  sessionID : ℕ
  zoneID : ℕ
  forcedClose : ℕ
  openTime : ℕ
  finalDist : ℚ
  noCloseRules : Bool
  peakHigh : ℚ
  peakLow : ℚ
  peakTime : ℕ
  active : Bool
  favTime : ℕ
deriving Repr, DecidableEq

/-- One entry of state["closedTrades"], lines 407-417. -/
structure ClosedRec where
  session : ℕ
  zone : ℕ
  dir : String
  entry : ℚ
  exitPrice : ℚ
  pips : ℚ
  reason : String
  openTime : ℕ
  closeTime : ℕ
deriving Repr, DecidableEq

/-- The global engine dict "state", lines 114-121, plus the "currentDate"
entry added by handle_daily_reset (none models the key being absent).
The field openedCount is a ghost counter that is not in the source: it is
incremented exactly where try_open_trade executes the trade-opening
assignment (line 345), so that conservation of trades can be stated. -/
structure EngineState where
  session1 : SessionData
  session2 : SessionData
  activeTrades1 : Option Trade
  activeTrades2 : Option Trade
  closedTrades : List ClosedRec
  overnightRef : Option ℚ
  middayRef : Option ℚ
  currentDate : Option ℕ
  openedCount : ℕ
deriving Repr, DecidableEq

/-- SessionData.__init__, lines 80-93. -/
def init_session (name : String) (stH stM enH enM : ℕ) (zones : List Zone) : SessionData :=
  { name := name, startH := stH, startM := stM, endH := enH, endM := enM,
    active := false, dayDate := none, openPrice := none, highPrice := none,
    lowPrice := none, allowed := true, zones := zones, used := [] }

/-- The initial engine state, lines 114-121. -/
def initState : EngineState :=
  { session1 := init_session "Session1" 8 0 12 30 SESSION1_ZONES,
    session2 := init_session "Session2" 14 30 17 16 SESSION2_ZONES,
    activeTrades1 := none, activeTrades2 := none, closedTrades := [],
    overnightRef := none, middayRef := none, currentDate := none,
    openedCount := 0 }

/-- The string keys present in the engine dict "state": the six initial
keys of lines 114-121 plus "currentDate", which handle_daily_reset
(line 182) inserts.  Used to model Python dict lookups. -/
def engineDictKeys : List String :=
  ["session1", "session2", "activeTrades", "closedTrades",
   "overnightRef", "middayRef", "currentDate"]

/-- The session the dict key i refers to (i is 1 or 2 at every call site). -/
def getSession (s : EngineState) (i : ℕ) : SessionData :=
  if i = 1 then s.session1 else s.session2

def setSession (s : EngineState) (i : ℕ) (x : SessionData) : EngineState :=
  if i = 1 then { s with session1 := x } else { s with session2 := x }

/-- state["activeTrades"][i] (the dict has exactly the keys 1 and 2). -/
def getSlot (s : EngineState) (i : ℕ) : Option Trade :=
  if i = 1 then s.activeTrades1 else s.activeTrades2

def setSlot (s : EngineState) (i : ℕ) (x : Option Trade) : EngineState :=
  if i = 1 then { s with activeTrades1 := x } else { s with activeTrades2 := x }

/-- handle_daily_reset, lines 179-189: on a new calendar day, re-allow both
sessions, clear the used sets and drop both active-trade slots. -/
def handle_daily_reset (dt : ℕ) (s : EngineState) : EngineState :=
  let current_date := pyDay dt
  if s.currentDate = some current_date then s
  else
    { s with currentDate := some current_date,
             session1 := { s.session1 with allowed := true, used := [] },
             session2 := { s.session2 with allowed := true, used := [] },
             activeTrades1 := none, activeTrades2 := none }

/-- start_session, lines 237-246. -/
def start_session (sess : SessionData) (price : ℚ) (dDate : ℕ) : SessionData :=
  { sess with active := true, dayDate := some dDate, openPrice := some price,
              highPrice := some price, lowPrice := some price }

/-- end_session, lines 248-254. -/
def end_session (sess : SessionData) : SessionData :=
  { sess with active := false, dayDate := none, openPrice := none,
              highPrice := none, lowPrice := none }

/-- handle_session, lines 215-235.  When the session is active its high and
low are always set, so the Option access is written with getD 0, which is
only reached with the value present. -/
def handle_session (dt : ℕ) (price : ℚ) (sess : SessionData) : SessionData :=
  let dDate := pyDay dt
  let sess := if sess.dayDate ≠ some dDate ∧ sess.active = true then end_session sess else sess
  if sess.allowed = false then
    if sess.active = true then end_session sess else sess
  else if in_time_window dt sess.startH sess.startM sess.endH sess.endM then
    if sess.active = false then start_session sess price dDate
    else
      let sess := if sess.highPrice.getD 0 < price then { sess with highPrice := some price } else sess
      if price < sess.lowPrice.getD 0 then { sess with lowPrice := some price } else sess
  else
    if sess.active = true then end_session sess else sess

/-- The zone scan of get_active_zone, lines 258-268: first zone whose time
window contains dt wins; the forced close instant is the same calendar
day at (fcH, fcM). -/
def zone_scan (dt : ℕ) : List Zone → Option (ℕ × ℕ × ℚ × Bool)
  | [] => none
  | z :: rest =>
    if in_time_window dt z.stH z.stM z.enH z.enM then
      some (pyDay dt * 1440 + hm z.fcH z.fcM, z.zID, z.baseDist, z.noClose)
    else zone_scan dt rest

/-- get_active_zone, lines 256-269. -/
def get_active_zone (dt : ℕ) (sess : SessionData) : Option (ℕ × ℕ × ℚ × Bool) :=
  if sess.active = false then none else zone_scan dt sess.zones

/-- calc_retraction, lines 271-277. -/
def calc_retraction (sess : SessionData) (price : ℚ) : ℚ :=
  if sess.active = false ∨ sess.openPrice = none then 0
  else if sess.openPrice.getD 0 ≤ price then sess.highPrice.getD 0 - price
  else price - sess.lowPrice.getD 0

/-- The row scan of retraction_lookup, lines 279-283. -/
def retraction_scan (r : ℚ) : List (ℚ × ℚ × ℤ × ℚ) → ℤ × ℚ
  | [] => (0, 0)
  | (mn, mx, skip, shift) :: rest =>
    if mn ≤ r ∧ r ≤ mx then (skip, shift) else retraction_scan r rest

/-- retraction_lookup, lines 279-283: first matching row, else (0, 0). -/
def retraction_lookup (r : ℚ) : ℤ × ℚ := retraction_scan r RETRACTION_TABLE

/-- Python list.index wrapped in try/except: the index of the first equal
element, none when absent (the caught ValueError, line 288-289). -/
def pyListIndex (x : ℚ) : List ℚ → Option ℕ
  | [] => none
  | a :: rest => if a = x then some 0 else (pyListIndex x rest).map (· + 1)

/-- Python list subscription xs[i] including negative indices
(xs[-k] is xs[len-k]); none models the IndexError, which no call site of
pick_final_distance can reach since the engine only passes skips from
RETRACTION_TABLE (so the index is at least -1). -/
def pyGetNeg (xs : List ℚ) (i : ℤ) : Option ℚ :=
  if 0 ≤ i then xs.get? i.toNat
  else if (-i).toNat ≤ xs.length then xs.get? (xs.length - (-i).toNat)
  else none

/-- The snapping loop of pick_final_distance, lines 301-312, scanning
DIST_LEVELS with its running index i; the head of rest is DIST_LEVELS[i+1]. -/
def snap_scan (chosen : ℚ) : List ℚ → ℕ → Option ℚ
  | [], _ => none
  | lv :: rest, i =>
    if |chosen - lv| < 1/2 then some lv
    else
      match rest.head? with
      | some nx =>
        if i < 3 ∧ lv < chosen ∧ chosen < nx then some nx
        else if i = 3 ∧ lv < chosen then some lv
        else snap_scan chosen rest (i + 1)
      | none =>
        if i = 3 ∧ lv < chosen then some lv
        else snap_scan chosen rest (i + 1)

/-- pick_final_distance, lines 285-312. -/
def pick_final_distance (baseDist : ℚ) (skip : ℤ) (shift : ℚ) : Option ℚ :=
  match pyListIndex baseDist DIST_LEVELS with
  | none => none
  | some baseIdx =>
    let finalIdx : ℤ := (baseIdx : ℤ) + skip
    let finalIdx := if 3 < finalIdx then 3 else finalIdx
    match pyGetNeg DIST_LEVELS finalIdx with
    | none => none
    | some nextVal =>
      let baseVal := (DIST_LEVELS.get? baseIdx).getD 0
      let shifted := baseVal + shift
      let chosen := max shifted nextVal
      if 130 + TOLERANCE < chosen then none
      else snap_scan chosen DIST_LEVELS 0

/-- try_open_trade, lines 314-352.  The ghost counter openedCount is
incremented exactly at the opening assignment of line 345. -/
def try_open_trade (dt : ℕ) (price : ℚ) (sID : ℕ) (s : EngineState) : EngineState :=
  if (getSlot s sID).isSome then s
  else
    let sess := getSession s sID
    match get_active_zone dt sess with
    | none => s
    | some (forcedC, zoneID, baseDist, noClose) =>
      let r := calc_retraction sess price
      let p := retraction_lookup r
      if p.1 = -1 then setSession s sID { sess with allowed := false }
      else
        let direction := if price < sess.openPrice.getD 0 then "BUY" else "SELL"
        let dist := |price - sess.openPrice.getD 0|
        if dist < baseDist then s
        else if baseDist + TOLERANCE < dist then s
        else
          match pick_final_distance baseDist p.1 p.2 with
          | none => s
          | some finalDist =>
            if dist < finalDist then s
            else if finalDist + TOLERANCE < dist then s
            else
              let tr : Trade :=
                { direction := direction, entry := price, sessionID := sID,
                  zoneID := zoneID, forcedClose := forcedC, openTime := dt,
                  finalDist := finalDist, noCloseRules := noClose,
                  peakHigh := price, peakLow := price, peakTime := dt,
                  active := true, favTime := dt }
              { setSlot s sID (some tr) with openedCount := s.openedCount + 1 }

/-- close_trade, lines 405-441: append the record, clear the slot keyed by
tr.sessionID (which is 1 or 2 for every trade the engine creates). -/
def close_trade (tr : Trade) (price : ℚ) (reason : String) (dt : ℕ) (s : EngineState) : EngineState :=
  let pl := if tr.direction = "BUY" then price - tr.entry else tr.entry - price
  let cRec : ClosedRec :=
    { session := tr.sessionID, zone := tr.zoneID, dir := tr.direction,
      entry := tr.entry, exitPrice := price, pips := pl, reason := reason,
      openTime := tr.openTime, closeTime := dt }
  setSlot { s with closedTrades := s.closedTrades ++ [cRec] } tr.sessionID none

/-- The peak update of manage_trade, lines 369-383.  The ghost field
favTime is refreshed only in the favorable branch (new high for a BUY,
new low for a SELL); the source field peakTime is refreshed in both. -/
def updPeaks (dt : ℕ) (price : ℚ) (tr : Trade) : Trade :=
  if tr.direction = "BUY" then
    let tr := if tr.peakHigh < price then { tr with peakHigh := price, peakTime := dt, favTime := dt } else tr
    if price < tr.peakLow then { tr with peakLow := price, peakTime := dt } else tr
  else
    let tr := if price < tr.peakLow then { tr with peakLow := price, peakTime := dt, favTime := dt } else tr
    if tr.peakHigh < price then { tr with peakHigh := price, peakTime := dt } else tr

/-- The result of running the per-trade body of manage_trade on one trade. -/
inductive ManageOutcome where
  | keep (tr : Trade)
  | closeWith (reason : String) (exitPrice : ℚ)
deriving Repr, DecidableEq, DecidableEq

/-- The per-trade body of manage_trade, lines 354-403, reported as an
outcome: keep the (peak-updated) trade, or close it with a reason at an
exit price (always the current sample price in this engine). -/
def manage_one (dt : ℕ) (price : ℚ) (tr : Trade) : ManageOutcome :=
  if tr.forcedClose ≤ dt then .closeWith "ForcedClose" price
  else if GSL ≤ |price - tr.entry| then .closeWith "GSL" price
  else
    let tr := updPeaks dt price tr
    if tr.noCloseRules = true then .keep tr
    else if 45 ≤ tr.finalDist ∧ tr.finalDist < 70 then
      let adv := if tr.direction = "BUY" then tr.entry - price else price - tr.entry
      if 15 ≤ adv ∧ |price - tr.entry| < 1 then .closeWith "BreakEven15" price
      else if TIME_CLOSE_45_69 ≤ minutes_diff tr.peakTime dt then .closeWith "TimeClose16" price
      else .keep tr
    else if TIME_CLOSE_70_PLUS ≤ minutes_diff tr.peakTime dt then .closeWith "TimeClose31" price
    else .keep tr

/-- One slot of the manage_trade loop, lines 354-403. -/
def manage_slot (dt : ℕ) (price : ℚ) (i : ℕ) (s : EngineState) : EngineState :=
  match getSlot s i with
  | none => s
  | some tr =>
    if tr.active = false then s
    else
      match manage_one dt price tr with
      | .keep tr2 => setSlot s i (some tr2)
      | .closeWith reason exitP => close_trade tr exitP reason dt s

/-- manage_trade, lines 354-403: the dict iteration visits slot 1 then 2. -/
def manage_trade (dt : ℕ) (price : ℚ) (s : EngineState) : EngineState :=
  manage_slot dt price 2 (manage_slot dt price 1 s)

/-- One slot of check_sweeps, lines 443-456.  When the sweep condition
holds, line 456 calls close_trade(tr, price, reason) with three arguments,
but close_trade (line 405) takes four required positional parameters, so
Python raises a TypeError at the call; the error value models it. -/
def check_sweeps_slot (price : ℚ) (i : ℕ) (s : EngineState) : Except String EngineState :=
  match getSlot s i with
  | none => .ok s
  | some tr =>
    if tr.active = false then .ok s
    else
      let sess := if tr.sessionID = 1 then s.session1 else s.session2
      if sess.active = true ∧ sess.openPrice ≠ none then
        if SWEEP_CLOSE ≤ |price - sess.openPrice.getD 0| then
          .error "TypeError: close_trade missing 1 required positional argument: dt"
        else .ok s
      else .ok s

/-- check_sweeps, lines 443-456 (dt is unused by the body). -/
def check_sweeps (dt : ℕ) (price : ℚ) (s : EngineState) : Except String EngineState := do
  let s ← check_sweeps_slot price 1 s
  check_sweeps_slot price 2 s

/-- check_outside_sessions, lines 458-464.  When the sample is outside both
session windows, line 462 reads state["activeTrade"]; the engine dict only
has the keys of engineDictKeys, so the lookup raises a KeyError before any
close can happen (the close call of line 464 is dead code). -/
def check_outside_sessions (dt : ℕ) (price : ℚ) (s : EngineState) : Except String EngineState :=
  let s1_in := in_time_window dt 8 0 12 30
  let s2_in := in_time_window dt 14 30 17 16
  if s1_in = false ∧ s2_in = false then
    if "activeTrade" ∈ engineDictKeys then .ok s
    else .error "KeyError: activeTrade"
  else .ok s

/-- Lines 467-469: at 17:16 record the overnight reference price. -/
def vol_overnight_set (dt : ℕ) (price : ℚ) (s : EngineState) : EngineState :=
  if pyHour dt = 17 ∧ pyMinute dt = 16 then { s with overnightRef := some price } else s

/-- Lines 470-475: at 8:00 compare to the overnight reference, possibly
disallow session 1, and clear the reference in any case. -/
def vol_overnight_apply (dt : ℕ) (price : ℚ) (s : EngineState) : EngineState :=
  if pyHour dt = 8 ∧ pyMinute dt = 0 then
    let s :=
      match s.overnightRef with
      | some ref =>
        if OVERNIGHT_LIMIT ≤ |price - ref| then
          { s with session1 := { s.session1 with allowed := false } }
        else s
      | none => s
    { s with overnightRef := none }
  else s

/-- Lines 478-479: at 12:00 record the midday reference price. -/
def vol_midday_set (dt : ℕ) (price : ℚ) (s : EngineState) : EngineState :=
  if pyHour dt = 12 ∧ pyMinute dt = 0 then { s with middayRef := some price } else s

/-- Lines 480-485: at 14:30 compare to the midday reference, possibly
disallow session 2, and clear the reference in any case. -/
def vol_midday_apply (dt : ℕ) (price : ℚ) (s : EngineState) : EngineState :=
  if pyHour dt = 14 ∧ pyMinute dt = 30 then
    let s :=
      match s.middayRef with
      | some ref =>
        if MIDDAY_LIMIT ≤ |price - ref| then
          { s with session2 := { s.session2 with allowed := false } }
        else s
      | none => s
    { s with middayRef := none }
  else s

/-- check_volatility, lines 466-485, as the composition of its four
checkpoint blocks in source order. -/
def check_volatility (dt : ℕ) (price : ℚ) (s : EngineState) : EngineState :=
  vol_midday_apply dt price (vol_midday_set dt price
    (vol_overnight_apply dt price (vol_overnight_set dt price s)))

/-- The two handle_session calls of lines 543-544. -/
def step_sessions (dt : ℕ) (price : ℚ) (s : EngineState) : EngineState :=
  let s := setSession s 1 (handle_session dt price (getSession s 1))
  setSession s 2 (handle_session dt price (getSession s 2))

/-- The two guarded try_open_trade calls of lines 548-551. -/
def step_opens (dt : ℕ) (price : ℚ) (s : EngineState) : EngineState :=
  let s := if s.session1.active = true then try_open_trade dt price 1 s else s
  if s.session2.active = true then try_open_trade dt price 2 s else s

/-- The per-row body of run_backtest, lines 539-552, in source order (the
CSV parsing and timezone glue above it is the external adapter). -/
def process_sample (s : EngineState) (dt : ℕ) (price : ℚ) : Except String EngineState := do
  let s := check_volatility dt price (step_sessions dt price (handle_daily_reset dt s))
  let s ← check_sweeps dt price s
  let s ← check_outside_sessions dt price s
  pure (manage_trade dt price (step_opens dt price s))

/-- The end-of-stream loop of run_backtest, lines 554-556: each still-active
trade is closed via close_trade(tr, tr.entry, "EndOfBacktest", dt) with dt
the timestamp of the last processed row. -/
def endOfBacktestClose (dt : ℕ) (s : EngineState) : EngineState :=
  let s :=
    match s.activeTrades1 with
    | some tr => if tr.active = true then close_trade tr tr.entry "EndOfBacktest" dt s else s
    | none => s
  match s.activeTrades2 with
  | some tr => if tr.active = true then close_trade tr tr.entry "EndOfBacktest" dt s else s
  | none => s

/-- run_backtest, lines 487-556, from a given start state: process the
samples in order, then run the end-of-stream loop at the last timestamp
(with no rows the loop body never evaluates dt, so the state is returned). -/
def run_backtest_from (s0 : EngineState) (samples : List (ℕ × ℚ)) : Except String EngineState := do
  let s ← samples.foldlM (fun st p => process_sample st p.1 p.2) s0
  match samples.getLast? with
  | some last => pure (endOfBacktestClose last.1 s)
  | none => pure s

/-- run_backtest on the fresh engine state of lines 114-121. -/
def run_backtest (samples : List (ℕ × ℚ)) : Except String EngineState :=
  run_backtest_from initState samples

/-!  The parts of mq4_backtest_v3.py cited by the claims: its Trade carries a
strategyID (lines 132-148) and its manage_trade (lines 358-418) adds the
PartialClose32 rule, per-strategy break-even suppression and a peak-based
maximum-adverse-excursion test. -/

/-- Trade of mq4_backtest_v3.py, lines 132-148. -/
structure TradeV3 where
  strategyID : ℕ
  direction : String
  entry : ℚ
  sessionID : ℕ
  zoneID : ℕ
  forcedClose : ℕ
  openTime : ℕ
  finalDist : ℚ
  noCloseRules : Bool
  peakHigh : ℚ
  peakLow : ℚ
  peakTime : ℕ
  active : Bool
deriving Repr, DecidableEq

/-- The peak update of mq4_backtest_v3.py manage_trade, lines 370-383. -/
def updPeaksV3 (dt : ℕ) (price : ℚ) (tr : TradeV3) : TradeV3 :=
  if tr.direction = "BUY" then
    let tr := if tr.peakHigh < price then { tr with peakHigh := price, peakTime := dt } else tr
    if price < tr.peakLow then { tr with peakLow := price, peakTime := dt } else tr
  else
    let tr := if price < tr.peakLow then { tr with peakLow := price, peakTime := dt } else tr
    if tr.peakHigh < price then { tr with peakHigh := price, peakTime := dt } else tr

/-- Outcome of the per-trade body of mq4_backtest_v3.py manage_trade. -/
inductive ManageOutcomeV3 where
  | keep (tr : TradeV3)
  | closeWith (reason : String) (exitPrice : ℚ)
deriving Repr, DecidableEq

/-- The per-trade body of manage_trade in mq4_backtest_v3.py, lines 358-418. -/
def manage_one_v3 (dt : ℕ) (price : ℚ) (tr : TradeV3) : ManageOutcomeV3 :=
  if tr.forcedClose ≤ dt then .closeWith "ForcedClose" price
  else if GSL ≤ |price - tr.entry| then .closeWith "GSL" price
  else
    let tr := updPeaksV3 dt price tr
    if tr.noCloseRules = true ∧ tr.strategyID ≠ 1 then .keep tr
    else if 45 ≤ tr.finalDist ∧ tr.finalDist < 70 then
      let skipBE :=
        if tr.strategyID = 2 then decide (tr.sessionID = 1 ∧ tr.zoneID = 1)
        else if tr.strategyID = 3 then true
        else if tr.strategyID = 4 then decide (¬ (tr.sessionID = 1 ∧ tr.zoneID = 1))
        else false
      let peakProfit := if tr.direction = "BUY" then tr.peakHigh - tr.entry else tr.entry - tr.peakLow
      let elap := minutes_diff tr.peakTime dt
      if 32 ≤ peakProfit ∧ peakProfit ≤ 35 ∧ 16 ≤ elap then
        .closeWith "PartialClose32" (if tr.direction = "BUY" then tr.entry + 32 else tr.entry - 32)
      else
        let mae := if tr.direction = "BUY" then tr.entry - tr.peakLow else tr.peakHigh - tr.entry
        if skipBE = false ∧ 15 ≤ mae ∧ |price - tr.entry| < 1 then
          .closeWith "BreakEven-15" price
        else if TIME_CLOSE_45_69 ≤ elap then .closeWith "TimeClose16" price
        else .keep tr
    else if TIME_CLOSE_70_PLUS ≤ minutes_diff tr.peakTime dt then .closeWith "TimeClose31" price
    else .keep tr

/-!  Definitions used only to state and check the claims. -/

/-- True exactly when the outcome is a close with one of the two time-decay
reasons of lines 397-403. -/
def isTimeClose : ManageOutcome → Bool
  | .closeWith r _ => r == "TimeClose16" || r == "TimeClose31"
  | .keep _ => false

/-- The rows of RETRACTION_TABLE whose [min, max] range contains r. -/
def retraction_matches (r : ℚ) : List (ℚ × ℚ × ℤ × ℚ) :=
  RETRACTION_TABLE.filter (fun q => decide (q.1 ≤ r ∧ r ≤ q.2.1))

/-- Every trade the engine stores in a slot is active and keyed by its own
session id (1 for the first slot, 2 for the second). -/
def SlotOK (s : EngineState) : Prop :=
  (∀ tr, s.activeTrades1 = some tr → tr.sessionID = 1 ∧ tr.active = true) ∧
  (∀ tr, s.activeTrades2 = some tr → tr.sessionID = 2 ∧ tr.active = true)

/-- Number of occupied active-trade slots. -/
def slotCount (s : EngineState) : ℕ :=
  (if s.activeTrades1.isSome then 1 else 0) + (if s.activeTrades2.isSome then 1 else 0)

/-- Trade conservation invariant: trades opened so far are exactly the closed
records plus the currently open trades. -/
def Inv (s : EngineState) : Prop :=
  SlotOK s ∧ s.openedCount = s.closedTrades.length + slotCount s

/-- Fold invariant for the single-day conservation statement: the
conservation invariant holds and either the current date is the common day
of the stream or no daily reset has run yet and no trade is open. -/
def Qd (d0 : ℕ) (s : EngineState) : Prop :=
  Inv s ∧ (s.currentDate = some d0 ∨ (s.currentDate = none ∧ slotCount s = 0))

/-- A session-1 state used by the concrete counterexamples: active with the
given open/high/low on day 0 and the configured zones. -/
def sess1With (op hi lo : ℚ) : SessionData :=
  { name := "Session1", startH := 8, startM := 0, endH := 12, endM := 30,
    active := true, dayDate := some 0, openPrice := some op,
    highPrice := some hi, lowPrice := some lo, allowed := true,
    zones := SESSION1_ZONES, used := [] }

/-- Engine state for the C1 counterexample: session 1 open 100 with a
20-point pull-back from the high (high 183 at price 163), no open trade. -/
def exC1 : EngineState :=
  { initState with session1 := sess1With 100 183 100, currentDate := some 0 }

/-- Trade for the C5 counterexample: a BUY from 100 in the lowest band whose
favorable extreme is still the entry (timestamp 0). -/
def trC5 : Trade :=
  { direction := "BUY", entry := 100, sessionID := 1, zoneID := 2,
    forcedClose := 100000, openTime := 0, finalDist := 45, noCloseRules := false,
    peakHigh := 100, peakLow := 100, peakTime := 0, active := true, favTime := 0 }

/-- What manage_one makes of trC5 at minute 20, price 98: the adverse extreme
refreshes peakTime (the time-decay clock) to 20. -/
def trC5up : Trade := { trC5 with peakLow := 98, peakTime := 20 }

/-- Trade for the C5 witness: a BUY in the 70 band with no new extremes. -/
def trC5w : Trade :=
  { direction := "BUY", entry := 100, sessionID := 1, zoneID := 3,
    forcedClose := 1000000, openTime := 0, finalDist := 70, noCloseRules := false,
    peakHigh := 100, peakLow := 100, peakTime := 0, active := true, favTime := 0 }

/-- Trade for the C4 check on mq4_backtest_v3.py: strategy 1, BUY from 100,
maximum adverse excursion 20 (peakLow 80), price back near entry. -/
def trC4v3 : TradeV3 :=
  { strategyID := 1, direction := "BUY", entry := 100, sessionID := 1,
    zoneID := 2, forcedClose := 100000, openTime := 0, finalDist := 45,
    noCloseRules := false, peakHigh := 100, peakLow := 80, peakTime := 0,
    active := true }

/-- Trade analogous to trC4v3 for the primary engine. -/
def trC4 : Trade :=
  { direction := "BUY", entry := 100, sessionID := 1, zoneID := 2,
    forcedClose := 100000, openTime := 0, finalDist := 45, noCloseRules := false,
    peakHigh := 100, peakLow := 80, peakTime := 0, active := true, favTime := 0 }

/-- Trade for the C6 witness: an open session-1 trade. -/
def trC6 : Trade :=
  { direction := "SELL", entry := 150, sessionID := 1, zoneID := 3,
    forcedClose := 100000, openTime := 620, finalDist := 70, noCloseRules := false,
    peakHigh := 150, peakLow := 150, peakTime := 620, active := true, favTime := 620 }

/-- Engine state for the C6 witness: session 1 active at open 100 with trC6
in the first slot. -/
def exC6 : EngineState :=
  { initState with session1 := sess1With 100 150 100, activeTrades1 := some trC6,
                   currentDate := some 0 }

/-- Samples for the C8 counterexample: day 0 opens a trade at 10:30 (zone 3,
distance 72), then the next sample is on day 1 at 10:20, so the daily reset
discards the open trade without a closed record. -/
def c8Samples : List (ℕ × ℚ) := [(620, 100), (630, 172), (2060, 100)]

/-- Samples for the C3 counterexample: the trade opened at minute 630 is
still open at the last sample (price 180), so the end-of-stream close fires
with the last seen price being 180 while the entry was 172. -/
def c3Samples : List (ℕ × ℚ) := [(620, 100), (630, 172), (640, 180)]

/-!  Helper lemmas. -/

@[simp] theorem except_ok_bind {α β : Type} (a : α) (f : α → Except String β) :
    (Except.ok a >>= f) = f a := rfl

@[simp] theorem except_error_bind {α β : Type} (e : String) (f : α → Except String β) :
    ((Except.error e : Except String α) >>= f) = Except.error e := rfl

@[simp] theorem updPeaks_direction (dt : ℕ) (price : ℚ) (tr : Trade) :
    (updPeaks dt price tr).direction = tr.direction := by
  simp only [updPeaks]; split_ifs <;> rfl

@[simp] theorem updPeaks_entry (dt : ℕ) (price : ℚ) (tr : Trade) :
    (updPeaks dt price tr).entry = tr.entry := by
  simp only [updPeaks]; split_ifs <;> rfl

@[simp] theorem updPeaks_finalDist (dt : ℕ) (price : ℚ) (tr : Trade) :
    (updPeaks dt price tr).finalDist = tr.finalDist := by
  simp only [updPeaks]; split_ifs <;> rfl

@[simp] theorem updPeaks_noCloseRules (dt : ℕ) (price : ℚ) (tr : Trade) :
    (updPeaks dt price tr).noCloseRules = tr.noCloseRules := by
  simp only [updPeaks]; split_ifs <;> rfl

@[simp] theorem updPeaks_sessionID (dt : ℕ) (price : ℚ) (tr : Trade) :
    (updPeaks dt price tr).sessionID = tr.sessionID := by
  simp only [updPeaks]; split_ifs <;> rfl

@[simp] theorem updPeaks_active (dt : ℕ) (price : ℚ) (tr : Trade) :
    (updPeaks dt price tr).active = tr.active := by
  simp only [updPeaks]; split_ifs <;> rfl

/-- The break-even branch of manage_one (lines 388-394) can never fire: its
guard needs an adverse excursion of at least 15 computed from the current
price together with the current price within 1 of entry, which is
contradictory. -/
theorem manage_one_no_breakeven (dt : ℕ) (price : ℚ) (tr : Trade) (e : ℚ) :
    manage_one dt price tr ≠ ManageOutcome.closeWith "BreakEven15" e := by
  intro h
  simp only [manage_one, updPeaks_direction, updPeaks_entry, updPeaks_finalDist,
    updPeaks_noCloseRules] at h
  split_ifs at h
  all_goals try (injection h with hr he; exact absurd hr (by decide))
  all_goals
    rename_i hBE
    rcases hBE with ⟨hadv, hclose⟩
    rcases abs_sub_lt_iff.mp hclose with ⟨hc1, hc2⟩
    linarith

@[simp] theorem setSession_activeTrades1 (s : EngineState) (i : ℕ) (x : SessionData) :
    (setSession s i x).activeTrades1 = s.activeTrades1 := by
  unfold setSession; split_ifs <;> rfl

@[simp] theorem setSession_activeTrades2 (s : EngineState) (i : ℕ) (x : SessionData) :
    (setSession s i x).activeTrades2 = s.activeTrades2 := by
  unfold setSession; split_ifs <;> rfl

@[simp] theorem setSession_closedTrades (s : EngineState) (i : ℕ) (x : SessionData) :
    (setSession s i x).closedTrades = s.closedTrades := by
  unfold setSession; split_ifs <;> rfl

@[simp] theorem setSession_openedCount (s : EngineState) (i : ℕ) (x : SessionData) :
    (setSession s i x).openedCount = s.openedCount := by
  unfold setSession; split_ifs <;> rfl

@[simp] theorem setSession_currentDate (s : EngineState) (i : ℕ) (x : SessionData) :
    (setSession s i x).currentDate = s.currentDate := by
  unfold setSession; split_ifs <;> rfl

@[simp] theorem setSlot_closedTrades (s : EngineState) (i : ℕ) (x : Option Trade) :
    (setSlot s i x).closedTrades = s.closedTrades := by
  unfold setSlot; split_ifs <;> rfl

@[simp] theorem setSlot_openedCount (s : EngineState) (i : ℕ) (x : Option Trade) :
    (setSlot s i x).openedCount = s.openedCount := by
  unfold setSlot; split_ifs <;> rfl

@[simp] theorem setSlot_currentDate (s : EngineState) (i : ℕ) (x : Option Trade) :
    (setSlot s i x).currentDate = s.currentDate := by
  unfold setSlot; split_ifs <;> rfl

@[simp] theorem setSlot_session1 (s : EngineState) (i : ℕ) (x : Option Trade) :
    (setSlot s i x).session1 = s.session1 := by
  unfold setSlot; split_ifs <;> rfl

@[simp] theorem setSlot_session2 (s : EngineState) (i : ℕ) (x : Option Trade) :
    (setSlot s i x).session2 = s.session2 := by
  unfold setSlot; split_ifs <;> rfl

theorem close_trade_closedTrades (tr : Trade) (p : ℚ) (reason : String) (dt : ℕ)
    (s : EngineState) :
    (close_trade tr p reason dt s).closedTrades = s.closedTrades ++
      [{ session := tr.sessionID, zone := tr.zoneID, dir := tr.direction,
         entry := tr.entry, exitPrice := p,
         pips := if tr.direction = "BUY" then p - tr.entry else tr.entry - p,
         reason := reason, openTime := tr.openTime, closeTime := dt }] := by
  simp [close_trade]

@[simp] theorem close_trade_openedCount (tr : Trade) (p : ℚ) (reason : String) (dt : ℕ)
    (s : EngineState) :
    (close_trade tr p reason dt s).openedCount = s.openedCount := by
  simp [close_trade]

@[simp] theorem close_trade_currentDate (tr : Trade) (p : ℚ) (reason : String) (dt : ℕ)
    (s : EngineState) :
    (close_trade tr p reason dt s).currentDate = s.currentDate := by
  simp [close_trade]

@[simp] theorem close_trade_session1 (tr : Trade) (p : ℚ) (reason : String) (dt : ℕ)
    (s : EngineState) :
    (close_trade tr p reason dt s).session1 = s.session1 := by
  simp [close_trade]

@[simp] theorem close_trade_session2 (tr : Trade) (p : ℚ) (reason : String) (dt : ℕ)
    (s : EngineState) :
    (close_trade tr p reason dt s).session2 = s.session2 := by
  simp [close_trade]

theorem close_trade_slots_1 (tr : Trade) (p : ℚ) (reason : String) (dt : ℕ)
    (s : EngineState) (h : tr.sessionID = 1) :
    (close_trade tr p reason dt s).activeTrades1 = none ∧
    (close_trade tr p reason dt s).activeTrades2 = s.activeTrades2 := by
  simp [close_trade, setSlot, h]

theorem close_trade_slots_2 (tr : Trade) (p : ℚ) (reason : String) (dt : ℕ)
    (s : EngineState) (h : tr.sessionID = 2) :
    (close_trade tr p reason dt s).activeTrades2 = none ∧
    (close_trade tr p reason dt s).activeTrades1 = s.activeTrades1 := by
  simp [close_trade, setSlot, h]

/-- C5 (amended): with forced close and stop not due and close rules in
force, the per-trade body closes with a time-close reason exactly when the
minutes since the latest extreme of either direction (the updated peakTime)
reach the threshold of the band of the trade. -/
theorem C5_amended (dt : ℕ) (price : ℚ) (tr : Trade)
    (hf : dt < tr.forcedClose) (hg : |price - tr.entry| < GSL)
    (hnc : tr.noCloseRules = false) :
    isTimeClose (manage_one dt price tr) = true ↔
      (if 45 ≤ tr.finalDist ∧ tr.finalDist < 70 then TIME_CLOSE_45_69 else TIME_CLOSE_70_PLUS)
        ≤ minutes_diff (updPeaks dt price tr).peakTime dt := by
  have h1 : ¬ tr.forcedClose ≤ dt := by omega
  have h2 : ¬ GSL ≤ |price - tr.entry| := not_le.mpr hg
  have hbe : ¬ (15 ≤ (if tr.direction = "BUY" then tr.entry - price else price - tr.entry) ∧
      |price - tr.entry| < 1) := by
    rintro ⟨hadv, hclose⟩
    rcases abs_sub_lt_iff.mp hclose with ⟨hc1, hc2⟩
    split_ifs at hadv <;> linarith
  simp only [manage_one, updPeaks_direction, updPeaks_entry, updPeaks_finalDist,
    updPeaks_noCloseRules, h1, h2, hnc, if_false, Bool.false_eq_true]
  by_cases hband : 45 ≤ tr.finalDist ∧ tr.finalDist < 70
  · rw [if_pos hband, if_pos hband, if_neg hbe]
    split_ifs with ht <;> simp [isTimeClose, ht]
  · rw [if_neg hband, if_neg hband]
    split_ifs with ht <;> simp [isTimeClose, ht]

theorem eobStep_mem (tr : Trade) (dt : ℕ) (s : EngineState) (r : ClosedRec)
    (hr : r ∈ (close_trade tr tr.entry "EndOfBacktest" dt s).closedTrades) :
    r ∈ s.closedTrades ∨ (r.reason = "EndOfBacktest" ∧ r.exitPrice = r.entry) := by
  rw [close_trade_closedTrades] at hr
  rcases List.mem_append.mp hr with h | h
  · exact Or.inl h
  · obtain rfl := List.mem_singleton.mp h
    exact Or.inr ⟨rfl, rfl⟩

theorem eob_mem_aux (dt : ℕ) (s : EngineState) (r : ClosedRec)
    (hr : r ∈ (endOfBacktestClose dt s).closedTrades) :
    r ∈ s.closedTrades ∨ (r.reason = "EndOfBacktest" ∧ r.exitPrice = r.entry) := by
  unfold endOfBacktestClose at hr
  rcases h1 : s.activeTrades1 with _ | tr1 <;> simp only [h1] at hr
  · rcases h2 : s.activeTrades2 with _ | tr2 <;> simp only [h2] at hr
    · exact Or.inl hr
    · split_ifs at hr with h
      · exact eobStep_mem tr2 dt s r hr
      · exact Or.inl hr
  · by_cases hact : tr1.active = true
    · rw [if_pos hact] at hr
      rcases h2 : (close_trade tr1 tr1.entry "EndOfBacktest" dt s).activeTrades2 with _ | tr2 <;>
        simp only [h2] at hr
      · exact eobStep_mem tr1 dt s r hr
      · split_ifs at hr with h
        · rcases eobStep_mem tr2 dt _ r hr with h3 | h3
          · exact eobStep_mem tr1 dt s r h3
          · exact Or.inr h3
        · exact eobStep_mem tr1 dt s r hr
    · rw [if_neg hact] at hr
      rcases h2 : s.activeTrades2 with _ | tr2 <;> simp only [h2] at hr
      · exact Or.inl hr
      · split_ifs at hr with h
        · exact eobStep_mem tr2 dt s r hr
        · exact Or.inl hr

theorem eob_slots_aux (dt : ℕ) (s : EngineState) (hok : SlotOK s) :
    (endOfBacktestClose dt s).activeTrades1 = none ∧
    (endOfBacktestClose dt s).activeTrades2 = none := by
  obtain ⟨hok1, hok2⟩ := hok
  unfold endOfBacktestClose
  rcases h1 : s.activeTrades1 with _ | tr1 <;> simp only [h1]
  · rcases h2 : s.activeTrades2 with _ | tr2 <;> simp only [h2]
    · exact ⟨h1, trivial⟩
    · obtain ⟨hsid, hact⟩ := hok2 tr2 h2
      rw [if_pos hact]
      have hc := close_trade_slots_2 tr2 tr2.entry "EndOfBacktest" dt s hsid
      exact ⟨by rw [hc.2, h1], hc.1⟩
  · obtain ⟨hsid1, hact1⟩ := hok1 tr1 h1
    rw [if_pos hact1]
    have hc1 := close_trade_slots_1 tr1 tr1.entry "EndOfBacktest" dt s hsid1
    rcases h2 : (close_trade tr1 tr1.entry "EndOfBacktest" dt s).activeTrades2 with _ | tr2 <;>
      simp only [h2]
    · exact ⟨hc1.1, trivial⟩
    · have h2x : s.activeTrades2 = some tr2 := by rw [← hc1.2, h2]
      obtain ⟨hsid2, hact2⟩ := hok2 tr2 h2x
      rw [if_pos hact2]
      have hc2 := close_trade_slots_2 tr2 tr2.entry "EndOfBacktest" dt
        (close_trade tr1 tr1.entry "EndOfBacktest" dt s) hsid2
      exact ⟨by rw [hc2.2, hc1.1], hc2.1⟩

/-- C3 (amended): at end of stream every record added by the final loop has
reason EndOfBacktest and an exit price equal to the entry price of the trade
(the source closes at tr.entry, line 556, not at the last seen price), and
every well-formed open slot is emptied. -/
theorem C3_amended (dt : ℕ) (s : EngineState) :
    (∀ r ∈ (endOfBacktestClose dt s).closedTrades,
        r ∈ s.closedTrades ∨ (r.reason = "EndOfBacktest" ∧ r.exitPrice = r.entry)) ∧
    (SlotOK s → (endOfBacktestClose dt s).activeTrades1 = none ∧
                (endOfBacktestClose dt s).activeTrades2 = none) :=
  ⟨fun r hr => eob_mem_aux dt s r hr, fun hok => eob_slots_aux dt s hok⟩

/-- Transfer of the conservation invariant along states that agree on the
trade-related fields. -/
theorem Inv_of_fields {s s' : EngineState}
    (h1 : s'.activeTrades1 = s.activeTrades1) (h2 : s'.activeTrades2 = s.activeTrades2)
    (h3 : s'.closedTrades = s.closedTrades) (h4 : s'.openedCount = s.openedCount)
    (h : Inv s) : Inv s' := by
  obtain ⟨⟨hok1, hok2⟩, hcnt⟩ := h
  refine ⟨⟨fun tr htr => hok1 tr (h1 ▸ htr), fun tr htr => hok2 tr (h2 ▸ htr)⟩, ?_⟩
  unfold slotCount at hcnt ⊢
  rw [h1, h2, h3, h4]
  exact hcnt

theorem Inv_initState : Inv initState := by
  constructor
  · constructor <;> intro tr htr <;> simp [initState] at htr
  · simp [initState, slotCount]

theorem hdr_noop (dt : ℕ) (s : EngineState) (h : s.currentDate = some (pyDay dt)) :
    handle_daily_reset dt s = s := by
  unfold handle_daily_reset
  rw [if_pos h]

theorem hdr_fields (dt : ℕ) (s : EngineState) :
    (handle_daily_reset dt s).closedTrades = s.closedTrades ∧
    (handle_daily_reset dt s).openedCount = s.openedCount := by
  simp only [handle_daily_reset]
  split_ifs <;> exact ⟨rfl, rfl⟩

theorem hdr_inv_of_empty (dt : ℕ) (s : EngineState) (hQ : Inv s)
    (hnone : s.currentDate = none) (hslots : slotCount s = 0) :
    Inv (handle_daily_reset dt s) ∧
    (handle_daily_reset dt s).currentDate = some (pyDay dt) := by
  obtain ⟨⟨hok1, hok2⟩, hcnt⟩ := hQ
  rw [hslots] at hcnt
  simp only [handle_daily_reset]
  rw [if_neg (by rw [hnone]; simp)]
  refine ⟨⟨⟨fun tr htr => by simp at htr, fun tr htr => by simp at htr⟩, ?_⟩, rfl⟩
  simpa [slotCount] using hcnt

theorem check_sweeps_slot_ok (p : ℚ) (i : ℕ) (s s' : EngineState)
    (h : check_sweeps_slot p i s = Except.ok s') : s' = s := by
  unfold check_sweeps_slot at h
  rcases hslot : getSlot s i with _ | tr <;> rw [hslot] at h <;> dsimp only at h
  · exact (Except.ok.inj h).symm
  · split_ifs at h <;> first
      | exact (Except.ok.inj h).symm
      | exact Except.noConfusion h

theorem check_sweeps_ok (dt : ℕ) (p : ℚ) (s s' : EngineState)
    (h : check_sweeps dt p s = Except.ok s') : s' = s := by
  unfold check_sweeps at h
  rcases h1 : check_sweeps_slot p 1 s with e | s1
  · rw [h1, except_error_bind] at h
    exact Except.noConfusion h
  · rw [h1, except_ok_bind] at h
    have hs1 : s1 = s := check_sweeps_slot_ok p 1 s s1 h1
    subst hs1
    exact check_sweeps_slot_ok p 2 s1 s' h

theorem check_outside_ok (dt : ℕ) (p : ℚ) (s s' : EngineState)
    (h : check_outside_sessions dt p s = Except.ok s') : s' = s := by
  unfold check_outside_sessions at h
  dsimp only at h
  split_ifs at h <;> first
    | exact (Except.ok.inj h).symm
    | exact Except.noConfusion h

theorem vol_overnight_set_fields (dt : ℕ) (p : ℚ) (s : EngineState) :
    (vol_overnight_set dt p s).activeTrades1 = s.activeTrades1 ∧
    (vol_overnight_set dt p s).activeTrades2 = s.activeTrades2 ∧
    (vol_overnight_set dt p s).closedTrades = s.closedTrades ∧
    (vol_overnight_set dt p s).openedCount = s.openedCount ∧
    (vol_overnight_set dt p s).currentDate = s.currentDate := by
  unfold vol_overnight_set
  split_ifs <;> exact ⟨rfl, rfl, rfl, rfl, rfl⟩

theorem vol_overnight_apply_fields (dt : ℕ) (p : ℚ) (s : EngineState) :
    (vol_overnight_apply dt p s).activeTrades1 = s.activeTrades1 ∧
    (vol_overnight_apply dt p s).activeTrades2 = s.activeTrades2 ∧
    (vol_overnight_apply dt p s).closedTrades = s.closedTrades ∧
    (vol_overnight_apply dt p s).openedCount = s.openedCount ∧
    (vol_overnight_apply dt p s).currentDate = s.currentDate := by
  simp only [vol_overnight_apply]
  rcases h : s.overnightRef with _ | r <;> dsimp only <;> split_ifs <;>
    exact ⟨rfl, rfl, rfl, rfl, rfl⟩

theorem vol_midday_set_fields (dt : ℕ) (p : ℚ) (s : EngineState) :
    (vol_midday_set dt p s).activeTrades1 = s.activeTrades1 ∧
    (vol_midday_set dt p s).activeTrades2 = s.activeTrades2 ∧
    (vol_midday_set dt p s).closedTrades = s.closedTrades ∧
    (vol_midday_set dt p s).openedCount = s.openedCount ∧
    (vol_midday_set dt p s).currentDate = s.currentDate := by
  unfold vol_midday_set
  split_ifs <;> exact ⟨rfl, rfl, rfl, rfl, rfl⟩

theorem vol_midday_apply_fields (dt : ℕ) (p : ℚ) (s : EngineState) :
    (vol_midday_apply dt p s).activeTrades1 = s.activeTrades1 ∧
    (vol_midday_apply dt p s).activeTrades2 = s.activeTrades2 ∧
    (vol_midday_apply dt p s).closedTrades = s.closedTrades ∧
    (vol_midday_apply dt p s).openedCount = s.openedCount ∧
    (vol_midday_apply dt p s).currentDate = s.currentDate := by
  simp only [vol_midday_apply]
  rcases h : s.middayRef with _ | r <;> dsimp only <;> split_ifs <;>
    exact ⟨rfl, rfl, rfl, rfl, rfl⟩

theorem check_volatility_fields (dt : ℕ) (p : ℚ) (s : EngineState) :
    (check_volatility dt p s).activeTrades1 = s.activeTrades1 ∧
    (check_volatility dt p s).activeTrades2 = s.activeTrades2 ∧
    (check_volatility dt p s).closedTrades = s.closedTrades ∧
    (check_volatility dt p s).openedCount = s.openedCount ∧
    (check_volatility dt p s).currentDate = s.currentDate := by
  unfold check_volatility
  obtain ⟨a1, a2, a3, a4, a5⟩ := vol_overnight_set_fields dt p s
  obtain ⟨b1, b2, b3, b4, b5⟩ := vol_overnight_apply_fields dt p (vol_overnight_set dt p s)
  obtain ⟨c1, c2, c3, c4, c5⟩ :=
    vol_midday_set_fields dt p (vol_overnight_apply dt p (vol_overnight_set dt p s))
  obtain ⟨d1, d2, d3, d4, d5⟩ := vol_midday_apply_fields dt p
    (vol_midday_set dt p (vol_overnight_apply dt p (vol_overnight_set dt p s)))
  exact ⟨by rw [d1, c1, b1, a1], by rw [d2, c2, b2, a2], by rw [d3, c3, b3, a3],
         by rw [d4, c4, b4, a4], by rw [d5, c5, b5, a5]⟩

theorem step_sessions_fields (dt : ℕ) (p : ℚ) (s : EngineState) :
    (step_sessions dt p s).activeTrades1 = s.activeTrades1 ∧
    (step_sessions dt p s).activeTrades2 = s.activeTrades2 ∧
    (step_sessions dt p s).closedTrades = s.closedTrades ∧
    (step_sessions dt p s).openedCount = s.openedCount ∧
    (step_sessions dt p s).currentDate = s.currentDate := by
  simp [step_sessions]

theorem open_update_inv (s : EngineState) (i : ℕ) (tr : Trade)
    (hi : i = 1 ∨ i = 2) (hsid : tr.sessionID = i) (hact : tr.active = true)
    (hempty : getSlot s i = none) (h : Inv s) :
    Inv { setSlot s i (some tr) with openedCount := s.openedCount + 1 } := by
  obtain ⟨⟨hok1, hok2⟩, hcnt⟩ := h
  rcases hi with rfl | rfl
  · have h1 : s.activeTrades1 = none := by simpa [getSlot] using hempty
    refine ⟨⟨?_, ?_⟩, ?_⟩
    · intro tr2 htr2
      simp [setSlot] at htr2
      subst htr2
      exact ⟨hsid, hact⟩
    · intro tr2 htr2
      simp [setSlot] at htr2
      exact hok2 tr2 htr2
    · simp only [slotCount, setSlot, h1] at hcnt ⊢
      simp at hcnt ⊢
      omega
  · have h2 : s.activeTrades2 = none := by simpa [getSlot] using hempty
    refine ⟨⟨?_, ?_⟩, ?_⟩
    · intro tr2 htr2
      simp [setSlot] at htr2
      exact hok1 tr2 htr2
    · intro tr2 htr2
      simp [setSlot] at htr2
      subst htr2
      exact ⟨hsid, hact⟩
    · simp only [slotCount, setSlot, h2] at hcnt ⊢
      simp at hcnt ⊢
      omega

theorem keep_update_inv (s : EngineState) (i : ℕ) (tr tr2 : Trade)
    (hi : i = 1 ∨ i = 2) (hslot : getSlot s i = some tr)
    (hsid : tr2.sessionID = tr.sessionID) (hact : tr2.active = tr.active) (h : Inv s) :
    Inv (setSlot s i (some tr2)) := by
  obtain ⟨⟨hok1, hok2⟩, hcnt⟩ := h
  rcases hi with rfl | rfl
  · have h1 : s.activeTrades1 = some tr := by simpa [getSlot] using hslot
    obtain ⟨hs1, ha1⟩ := hok1 tr h1
    refine ⟨⟨?_, ?_⟩, ?_⟩
    · intro tr3 htr3
      simp [setSlot] at htr3
      subst htr3
      exact ⟨hsid.trans hs1, hact.trans ha1⟩
    · intro tr3 htr3
      simp [setSlot] at htr3
      exact hok2 tr3 htr3
    · simp only [slotCount, setSlot, h1] at hcnt ⊢
      simp at hcnt ⊢
      omega
  · have h2 : s.activeTrades2 = some tr := by simpa [getSlot] using hslot
    obtain ⟨hs2, ha2⟩ := hok2 tr h2
    refine ⟨⟨?_, ?_⟩, ?_⟩
    · intro tr3 htr3
      simp [setSlot] at htr3
      exact hok1 tr3 htr3
    · intro tr3 htr3
      simp [setSlot] at htr3
      subst htr3
      exact ⟨hsid.trans hs2, hact.trans ha2⟩
    · simp only [slotCount, setSlot, h2] at hcnt ⊢
      simp at hcnt ⊢
      omega

theorem close_update_inv (s : EngineState) (i : ℕ) (tr : Trade) (exitP : ℚ)
    (reason : String) (dt : ℕ) (hi : i = 1 ∨ i = 2) (hslot : getSlot s i = some tr)
    (h : Inv s) : Inv (close_trade tr exitP reason dt s) := by
  obtain ⟨⟨hok1, hok2⟩, hcnt⟩ := h
  rcases hi with rfl | rfl
  · have h1 : s.activeTrades1 = some tr := by simpa [getSlot] using hslot
    obtain ⟨hs1, ha1⟩ := hok1 tr h1
    have hcl := close_trade_slots_1 tr exitP reason dt s hs1
    refine ⟨⟨?_, ?_⟩, ?_⟩
    · intro tr3 htr3
      rw [hcl.1] at htr3
      exact Option.noConfusion htr3
    · intro tr3 htr3
      rw [hcl.2] at htr3
      exact hok2 tr3 htr3
    · rw [close_trade_openedCount, close_trade_closedTrades]
      unfold slotCount
      rw [hcl.1, hcl.2]
      unfold slotCount at hcnt
      rw [h1] at hcnt
      simp at hcnt ⊢
      omega
  · have h2 : s.activeTrades2 = some tr := by simpa [getSlot] using hslot
    obtain ⟨hs2, ha2⟩ := hok2 tr h2
    have hcl := close_trade_slots_2 tr exitP reason dt s hs2
    refine ⟨⟨?_, ?_⟩, ?_⟩
    · intro tr3 htr3
      rw [hcl.2] at htr3
      exact hok1 tr3 htr3
    · intro tr3 htr3
      rw [hcl.1] at htr3
      exact Option.noConfusion htr3
    · rw [close_trade_openedCount, close_trade_closedTrades]
      unfold slotCount
      rw [hcl.1, hcl.2]
      unfold slotCount at hcnt
      rw [h2] at hcnt
      simp at hcnt ⊢
      omega

theorem manage_one_keep_fields (dt : ℕ) (p : ℚ) (tr tr2 : Trade)
    (h : manage_one dt p tr = ManageOutcome.keep tr2) :
    tr2.sessionID = tr.sessionID ∧ tr2.active = tr.active := by
  simp only [manage_one] at h
  split_ifs at h <;>
    first
      | exact ManageOutcome.noConfusion h
      | (rw [← ManageOutcome.keep.inj h]
         exact ⟨updPeaks_sessionID dt p tr, updPeaks_active dt p tr⟩)

theorem manage_slot_inv (dt : ℕ) (p : ℚ) (i : ℕ) (s : EngineState)
    (hi : i = 1 ∨ i = 2) (h : Inv s) :
    Inv (manage_slot dt p i s) ∧ (manage_slot dt p i s).currentDate = s.currentDate := by
  unfold manage_slot
  rcases hslot : getSlot s i with _ | tr <;> dsimp only
  · exact ⟨h, rfl⟩
  · split_ifs with hact
    · exact ⟨h, rfl⟩
    · rcases hmo : manage_one dt p tr with tr2 | ⟨reason, exitP⟩ <;> dsimp only
      · obtain ⟨hsid2, hact2⟩ := manage_one_keep_fields dt p tr tr2 hmo
        refine ⟨keep_update_inv s i tr tr2 hi hslot hsid2 hact2 h, ?_⟩
        rw [setSlot_currentDate]
      · refine ⟨close_update_inv s i tr exitP reason dt hi hslot h, ?_⟩
        rw [close_trade_currentDate]

theorem manage_trade_inv (dt : ℕ) (p : ℚ) (s : EngineState) (h : Inv s) :
    Inv (manage_trade dt p s) ∧ (manage_trade dt p s).currentDate = s.currentDate := by
  unfold manage_trade
  obtain ⟨h1, hc1⟩ := manage_slot_inv dt p 1 s (Or.inl rfl) h
  obtain ⟨h2, hc2⟩ := manage_slot_inv dt p 2 (manage_slot dt p 1 s) (Or.inr rfl) h1
  exact ⟨h2, hc2.trans hc1⟩

/-- C9: the run is a pure function of the sample stream and the fresh start
state, so two replays from fresh engine states produce identical
closed-trade sequences. -/
theorem C9_determinism (samples : List (ℕ × ℚ)) (s1 s2 : EngineState)
    (h1 : s1 = initState) (h2 : s2 = initState) :
    (run_backtest_from s1 samples).map EngineState.closedTrades =
    (run_backtest_from s2 samples).map EngineState.closedTrades := by
  subst h1; subst h2; rfl

theorem pick_45_0_18 : pick_final_distance 45 0 18 = some 70 := by
  norm_num [pick_final_distance, pyListIndex, DIST_LEVELS, pyGetNeg, snap_scan, TOLERANCE]

theorem retraction_lookup_20 : retraction_lookup 20 = (0, 18) := by
  norm_num [retraction_lookup, retraction_scan, RETRACTION_TABLE]

/-- C1 (amended): a 20-point pull-back in the 45-band zone (zone 2 of
session 1) makes the table add +18 to the base rung 45, but the resolver
snaps the candidate 63 to the ladder rung 70, not 63; combined with the
base-band check (distance at most 54 = 45 + tolerance) the entry conditions
are unsatisfiable, so try_open_trade opens nothing and leaves the state
unchanged. -/
theorem C1_amended (s : EngineState) (dt : ℕ) (price : ℚ)
    (htod1 : 570 ≤ dt % 1440) (htod2 : dt % 1440 < 585)
    (hzones : s.session1.zones = SESSION1_ZONES)
    (hact : s.session1.active = true)
    (hop : s.session1.openPrice = some 100)
    (hhi : s.session1.highPrice = some (price + 20))
    (hpr : 100 ≤ price) :
    pick_final_distance 45 0 18 = some 70 ∧ try_open_trade dt price 1 s = s := by
  refine ⟨pick_45_0_18, ?_⟩
  have hw1 : in_time_window dt 8 16 9 5 = false := by
    unfold in_time_window pyTod hm; norm_num; omega
  have hw2 : in_time_window dt 9 30 9 45 = true := by
    unfold in_time_window pyTod hm; norm_num; omega
  have hsess : getSession s 1 = s.session1 := by simp [getSession]
  have hzone : get_active_zone dt (getSession s 1) =
      some (pyDay dt * 1440 + 606, 2, 45, false) := by
    rw [hsess]
    simp [get_active_zone, hact, hzones, SESSION1_ZONES, zone_scan, hw1, hw2, hm]
  have hr20 : calc_retraction (getSession s 1) price = 20 := by
    rw [hsess]
    rw [calc_retraction, if_neg, if_pos]
    · rw [hhi]; simp
    · rw [hop]; simpa using hpr
    · rw [hact, hop]; simp
  unfold try_open_trade
  rcases hslot : getSlot s 1 with _ | tr
  case some => simp [hslot]
  case none =>
  simp only [Option.isSome_none, Bool.false_eq_true, if_false]
  rw [hzone]
  simp only [hr20, retraction_lookup_20]
  have hdist : |price - (getSession s 1).openPrice.getD 0| = price - 100 := by
    rw [hsess, hop]
    simp only [Option.getD_some]
    exact abs_of_nonneg (by linarith)
  norm_num
  rw [hdist, pick_45_0_18]
  intro h1 h2
  have hT : TOLERANCE = 9 := rfl
  rw [hT] at h2
  dsimp only
  rw [if_pos (show price - 100 < 70 by linarith)]

/-- C2: a sample outside both session windows makes check_outside_sessions
look up the dict key "activeTrade", which the engine state does not have, so
the call raises KeyError instead of closing the trade. -/
theorem C2_outside_sessions_raises (dt : ℕ) (price : ℚ) (s : EngineState)
    (h1 : in_time_window dt 8 0 12 30 = false)
    (h2 : in_time_window dt 14 30 17 16 = false) :
    check_outside_sessions dt price s = Except.error "KeyError: activeTrade" := by
  simp [check_outside_sessions, h1, h2, engineDictKeys]

/-- C6: whenever a session-1 trade is open, session 1 is active and the
price is at sweep distance from the session open, check_sweeps calls
close_trade with three arguments (line 456) and therefore raises TypeError
instead of closing the trade with a Sweep reason. -/
theorem C6_sweep_raises (dt : ℕ) (price op : ℚ) (s : EngineState) (tr : Trade)
    (h1 : s.activeTrades1 = some tr) (h2 : tr.active = true) (h3 : tr.sessionID = 1)
    (h4 : s.session1.active = true) (h5 : s.session1.openPrice = some op)
    (h6 : SWEEP_CLOSE ≤ |price - op|) :
    check_sweeps dt price s =
      Except.error "TypeError: close_trade missing 1 required positional argument: dt" := by
  simp [check_sweeps, check_sweeps_slot, getSlot, h1, h2, h3, h4, h5, h6, Except.bind]

end MQ4

namespace MQ4

@[simp] theorem except_pure {α : Type} (a : α) :
    (pure a : Except String α) = Except.ok a := rfl

theorem try_open_inv (dt : ℕ) (p : ℚ) (i : ℕ) (s : EngineState)
    (hi : i = 1 ∨ i = 2) (h : Inv s) :
    Inv (try_open_trade dt p i s) ∧ (try_open_trade dt p i s).currentDate = s.currentDate := by
  unfold try_open_trade
  rcases hslot : getSlot s i with _ | tr <;> dsimp only
  · rw [if_neg (by simp)]
    rcases hz : get_active_zone dt (getSession s i) with _ | z <;> dsimp only
    · exact ⟨h, rfl⟩
    · obtain ⟨fc, zid, bd, nc⟩ := z
      dsimp only
      split_ifs <;> first
        | exact ⟨h, rfl⟩
        | exact ⟨Inv_of_fields (setSession_activeTrades1 s i _) (setSession_activeTrades2 s i _)
            (setSession_closedTrades s i _) (setSession_openedCount s i _) h,
            setSession_currentDate s i _⟩
        | (rcases hp : pick_final_distance bd
              (retraction_lookup (calc_retraction (getSession s i) p)).1
              (retraction_lookup (calc_retraction (getSession s i) p)).2 with _ | fd <;>
            dsimp only <;> first
            | exact ⟨h, rfl⟩
            | (split_ifs <;> first
                | exact ⟨h, rfl⟩
                | exact ⟨open_update_inv s i _ hi rfl rfl hslot h, by simp⟩))
  · rw [if_pos (by simp)]
    exact ⟨h, rfl⟩

theorem step_opens_inv (dt : ℕ) (p : ℚ) (s : EngineState) (h : Inv s) :
    Inv (step_opens dt p s) ∧ (step_opens dt p s).currentDate = s.currentDate := by
  unfold step_opens
  dsimp only
  split_ifs
  · obtain ⟨i1, c1⟩ := try_open_inv dt p 1 s (Or.inl rfl) h
    obtain ⟨i2, c2⟩ := try_open_inv dt p 2 _ (Or.inr rfl) i1
    exact ⟨i2, c2.trans c1⟩
  · exact try_open_inv dt p 1 s (Or.inl rfl) h
  · exact try_open_inv dt p 2 s (Or.inr rfl) h
  · exact ⟨h, rfl⟩

theorem process_sample_ok (s : EngineState) (dt : ℕ) (price : ℚ) (s' : EngineState)
    (h : process_sample s dt price = Except.ok s') :
    s' = manage_trade dt price (step_opens dt price
      (check_volatility dt price (step_sessions dt price (handle_daily_reset dt s)))) := by
  unfold process_sample at h
  dsimp only at h
  rcases h1 : check_sweeps dt price
      (check_volatility dt price (step_sessions dt price (handle_daily_reset dt s))) with e | b
  · rw [h1, except_error_bind] at h
    exact Except.noConfusion h
  · rw [h1, except_ok_bind] at h
    have hb := check_sweeps_ok dt price _ b h1
    subst hb
    rcases h2 : check_outside_sessions dt price
        (check_volatility dt price (step_sessions dt price (handle_daily_reset dt s))) with e | c
    · rw [h2, except_error_bind] at h
      exact Except.noConfusion h
    · rw [h2, except_ok_bind] at h
      have hc := check_outside_ok dt price _ c h2
      subst hc
      rw [except_pure] at h
      exact (Except.ok.inj h).symm

theorem process_sample_inv (s : EngineState) (dt : ℕ) (price : ℚ) (d0 : ℕ) (s' : EngineState)
    (hd : pyDay dt = d0) (hQ : Qd d0 s) (h : process_sample s dt price = Except.ok s') :
    Inv s' ∧ s'.currentDate = some d0 := by
  obtain ⟨hInv, hcd⟩ := hQ
  subst hd
  have hhdr : Inv (handle_daily_reset dt s) ∧
      (handle_daily_reset dt s).currentDate = some (pyDay dt) := by
    rcases hcd with hcd | ⟨hnone, hslots⟩
    · rw [hdr_noop dt s hcd]; exact ⟨hInv, hcd⟩
    · exact hdr_inv_of_empty dt s hInv hnone hslots
  obtain ⟨hI1, hC1⟩ := hhdr
  obtain ⟨a1, a2, a3, a4, a5⟩ := step_sessions_fields dt price (handle_daily_reset dt s)
  have hI2 : Inv (step_sessions dt price (handle_daily_reset dt s)) :=
    Inv_of_fields a1 a2 a3 a4 hI1
  obtain ⟨b1, b2, b3, b4, b5⟩ :=
    check_volatility_fields dt price (step_sessions dt price (handle_daily_reset dt s))
  have hI3 : Inv (check_volatility dt price (step_sessions dt price (handle_daily_reset dt s))) :=
    Inv_of_fields b1 b2 b3 b4 hI2
  obtain ⟨hI4, hC4⟩ := step_opens_inv dt price _ hI3
  obtain ⟨hI5, hC5⟩ := manage_trade_inv dt price _ hI4
  rw [process_sample_ok s dt price s' h]
  exact ⟨hI5, by rw [hC5, hC4, b5, a5, hC1]⟩

theorem run_fold_Q (d0 : ℕ) : ∀ (samples : List (ℕ × ℚ)) (s : EngineState),
    (∀ x ∈ samples, pyDay x.1 = d0) → Qd d0 s →
    ∀ s', List.foldlM (fun st q => process_sample st q.1 q.2) s samples = Except.ok s' →
    Qd d0 s' := by
  intro samples
  induction samples with
  | nil =>
    intro s _ hQ s' h
    simp only [List.foldlM_nil, except_pure] at h
    obtain rfl := Except.ok.inj h
    exact hQ
  | cons a rest ih =>
    intro s hday hQ s' h
    rw [List.foldlM_cons] at h
    rcases hp : process_sample s a.1 a.2 with e | s1 <;> rw [hp] at h
    · rw [except_error_bind] at h
      exact Except.noConfusion h
    · rw [except_ok_bind] at h
      have h1 := process_sample_inv s a.1 a.2 d0 s1 (hday a (by simp)) hQ hp
      exact ih s1 (fun x hx => hday x (List.mem_cons_of_mem a hx)) ⟨h1.1, Or.inl h1.2⟩ s' h

theorem eob_inv (dt : ℕ) (s : EngineState) (h : Inv s) :
    (endOfBacktestClose dt s).openedCount = (endOfBacktestClose dt s).closedTrades.length := by
  obtain ⟨⟨hok1, hok2⟩, hcnt⟩ := h
  unfold endOfBacktestClose
  rcases h1 : s.activeTrades1 with _ | tr1 <;> simp only [h1]
  · rcases h2 : s.activeTrades2 with _ | tr2 <;> simp only [h2]
    · unfold slotCount at hcnt
      rw [h1, h2] at hcnt
      simpa using hcnt
    · obtain ⟨hsid, hact⟩ := hok2 tr2 h2
      rw [if_pos hact, close_trade_openedCount, close_trade_closedTrades]
      unfold slotCount at hcnt
      rw [h1, h2] at hcnt
      simp at hcnt ⊢
      omega
  · obtain ⟨hsid1, hact1⟩ := hok1 tr1 h1
    rw [if_pos hact1]
    have hcl := close_trade_slots_1 tr1 tr1.entry "EndOfBacktest" dt s hsid1
    rcases h2 : (close_trade tr1 tr1.entry "EndOfBacktest" dt s).activeTrades2 with _ | tr2 <;>
      simp only [h2]
    · rw [close_trade_openedCount, close_trade_closedTrades]
      have h2x : s.activeTrades2 = none := by rw [← hcl.2, h2]
      unfold slotCount at hcnt
      rw [h1, h2x] at hcnt
      simp at hcnt ⊢
      omega
    · have h2x : s.activeTrades2 = some tr2 := by rw [← hcl.2, h2]
      obtain ⟨hsid2, hact2⟩ := hok2 tr2 h2x
      rw [if_pos hact2, close_trade_openedCount, close_trade_closedTrades,
          close_trade_openedCount, close_trade_closedTrades]
      unfold slotCount at hcnt
      rw [h1, h2x] at hcnt
      simp at hcnt ⊢
      omega

/-- C8 (amended): over a stream that stays within one calendar day, every
opened trade has exactly one closed record by end of stream (number of opens
equals number of closed records); a trade still open when the daily reset of
a later day runs is silently dropped instead, which the counterexample
exhibits. -/
theorem C8_amended (samples : List (ℕ × ℚ)) (d0 : ℕ)
    (hday : ∀ x ∈ samples, x.1 / 1440 = d0) (s : EngineState)
    (hrun : run_backtest samples = Except.ok s) :
    s.openedCount = s.closedTrades.length := by
  unfold run_backtest run_backtest_from at hrun
  rcases hf : List.foldlM (fun st q => process_sample st q.1 q.2) initState samples with e | sf
  · rw [hf, except_error_bind] at hrun
    exact Except.noConfusion hrun
  · rw [hf, except_ok_bind] at hrun
    have hQf : Qd d0 sf :=
      run_fold_Q d0 samples initState hday ⟨Inv_initState, Or.inr ⟨rfl, rfl⟩⟩ sf hf
    rcases hlast : samples.getLast? with _ | last <;> rw [hlast] at hrun <;> dsimp only at hrun
    · have hnil : samples = [] := List.getLast?_eq_none_iff.mp hlast
      subst hnil
      simp only [List.foldlM_nil, except_pure] at hf
      obtain rfl := Except.ok.inj hf
      rw [except_pure] at hrun
      obtain rfl := Except.ok.inj hrun
      rfl
    · rw [except_pure] at hrun
      obtain rfl := Except.ok.inj hrun
      exact eob_inv last.1 sf hQf.1

end MQ4

deriving instance DecidableEq for Except

namespace MQ4

attribute [local semireducible] Rat.add Rat.sub Rat.mul Rat.inv Rat.ofScientific

set_option maxRecDepth 200000

theorem retraction_lookup_cases (r : ℚ) :
    retraction_lookup r = (0, 18) ∨ retraction_lookup r = (1, 0) ∨
    retraction_lookup r = (2, 0) ∨ retraction_lookup r = (-1, 0) ∨
    retraction_lookup r = (0, 0) := by
  simp only [retraction_lookup, RETRACTION_TABLE, retraction_scan]
  split_ifs <;> tauto

theorem pyListIndex_not_on_ladder (x : ℚ) (h45 : x ≠ 45) (h70 : x ≠ 70)
    (h100 : x ≠ 100) (h130 : x ≠ 130) :
    pyListIndex x DIST_LEVELS = none := by
  simp only [DIST_LEVELS, pyListIndex]
  rw [if_neg (fun hh => h45 hh.symm), if_neg (fun hh => h70 hh.symm),
      if_neg (fun hh => h100 hh.symm), if_neg (fun hh => h130 hh.symm)]
  rfl

/-- C10: for every base distance and every (skip, extra-distance) pair the
retracement table can produce, pick_final_distance returns either None or a
rung of the ladder; intermediate candidates such as 45 + 18 = 63 are always
snapped to a rung. -/
theorem C10_final_distance_on_ladder (baseDist r : ℚ) :
    pick_final_distance baseDist (retraction_lookup r).1 (retraction_lookup r).2 = none ∨
    ∃ lv ∈ DIST_LEVELS, pick_final_distance baseDist (retraction_lookup r).1
        (retraction_lookup r).2 = some lv := by
  by_cases h45 : baseDist = 45
  · subst h45
    rcases retraction_lookup_cases r with h | h | h | h | h <;> rw [h]
    · exact Or.inr ⟨70, by decide, by decide⟩
    · exact Or.inr ⟨70, by decide, by decide⟩
    · exact Or.inr ⟨100, by decide, by decide⟩
    · exact Or.inr ⟨130, by decide, by decide⟩
    · exact Or.inr ⟨45, by decide, by decide⟩
  by_cases h70 : baseDist = 70
  · subst h70
    rcases retraction_lookup_cases r with h | h | h | h | h <;> rw [h]
    · exact Or.inr ⟨100, by decide, by decide⟩
    · exact Or.inr ⟨100, by decide, by decide⟩
    · exact Or.inr ⟨130, by decide, by decide⟩
    · exact Or.inr ⟨70, by decide, by decide⟩
    · exact Or.inr ⟨70, by decide, by decide⟩
  by_cases h100 : baseDist = 100
  · subst h100
    rcases retraction_lookup_cases r with h | h | h | h | h <;> rw [h]
    · exact Or.inr ⟨130, by decide, by decide⟩
    · exact Or.inr ⟨130, by decide, by decide⟩
    · exact Or.inr ⟨130, by decide, by decide⟩
    · exact Or.inr ⟨100, by decide, by decide⟩
    · exact Or.inr ⟨100, by decide, by decide⟩
  by_cases h130 : baseDist = 130
  · subst h130
    rcases retraction_lookup_cases r with h | h | h | h | h <;> rw [h]
    · exact Or.inl (by decide)
    · exact Or.inr ⟨130, by decide, by decide⟩
    · exact Or.inr ⟨130, by decide, by decide⟩
    · exact Or.inr ⟨130, by decide, by decide⟩
    · exact Or.inr ⟨130, by decide, by decide⟩
  · left
    unfold pick_final_distance
    rw [pyListIndex_not_on_ladder baseDist h45 h70 h100 h130]

/-- C4: the break-even rule of mq4_backtest.py is dead code (its guard is
contradictory, so no trade ever closes with reason BreakEven15), while the
v3 engine, whose maximum adverse excursion is computed from the price
extremes, does close the same position with its break-even reason; the
primary engine keeps that position open. -/
theorem C4_breakeven_bug :
    (∀ (dt : ℕ) (price : ℚ) (tr : Trade) (e : ℚ),
        manage_one dt price tr ≠ ManageOutcome.closeWith "BreakEven15" e) ∧
    manage_one_v3 5 (201/2) trC4v3 = ManageOutcomeV3.closeWith "BreakEven-15" (201/2) ∧
    manage_one 5 (201/2) trC4 = ManageOutcome.keep
      { trC4 with peakHigh := 201/2, peakTime := 5, favTime := 5 } :=
  ⟨manage_one_no_breakeven, by decide, by decide⟩

/-- C7 (amended): the retracement ranges are pairwise non-overlapping, and
on the union of the four closed ranges exactly one row matches; magnitudes
in the gaps between ranges (for example 29.95) match no row. -/
theorem C7_amended :
    (∀ r : ℚ, (retraction_matches r).length ≤ 1) ∧
    ∀ r : ℚ, ((15 ≤ r ∧ r ≤ 299/10) ∨ (30 ≤ r ∧ r ≤ 359/10) ∨
        (36 ≤ r ∧ r ≤ 459/10) ∨ (46 ≤ r ∧ r ≤ 9999)) →
      (retraction_matches r).length = 1 := by
  constructor
  · intro r
    simp only [retraction_matches, RETRACTION_TABLE, List.filter_cons, List.filter_nil,
      decide_eq_true_eq]
    split_ifs <;> simp_all <;> linarith
  · rintro r (⟨ha, hb⟩ | ⟨ha, hb⟩ | ⟨ha, hb⟩ | ⟨ha, hb⟩) <;>
      simp only [retraction_matches, RETRACTION_TABLE, List.filter_cons, List.filter_nil,
        decide_eq_true_eq] <;>
      split_ifs <;> simp_all <;> linarith

theorem C7_amended_witness : (retraction_matches 20).length = 1 :=
  C7_amended.2 20 (Or.inl ⟨by norm_num, by norm_num⟩)

/-- C7 counterexample: 29.95 is at least 15 but matches no row of the
table, so the table is not exhaustive above 15 and the first-match lookup
falls back to no adjustment. -/
theorem C7_counterexample :
    (15:ℚ) ≤ 599/20 ∧ retraction_matches (599/20) = [] ∧
    retraction_lookup (599/20) = (0, 0) :=
  ⟨by norm_num, by decide, by decide⟩

/-- C1 counterexample: after the +18 adjustment on base 45 the resolved
target is the ladder rung 70, not 63, and at distance 63 from the session
open (price 163, open 100) no trade opens. -/
theorem C1_counterexample :
    pick_final_distance 45 0 18 ≠ some 63 ∧
    pick_final_distance 45 0 18 = some 70 ∧
    try_open_trade 575 163 1 exC1 = exC1 :=
  ⟨by decide, by decide, by decide⟩

theorem C1_amended_witness : try_open_trade 575 163 1 exC1 = exC1 :=
  (C1_amended exC1 575 163 (by decide) (by decide) rfl rfl rfl (by decide) (by norm_num)).2

theorem C2_outside_sessions_raises_witness :
    check_outside_sessions 780 0 initState = Except.error "KeyError: activeTrade" :=
  C2_outside_sessions_raises 780 0 initState (by decide) (by decide)

/-- C3 counterexample: in a run whose last seen price is 180 the trade
entered at 172 is closed as EndOfBacktest with exit price 172 (its entry),
not the last seen price 180. -/
theorem C3_counterexample :
    (run_backtest c3Samples).map
        (fun s => s.closedTrades.map (fun r => (r.reason, r.entry, r.exitPrice)))
      = Except.ok [("EndOfBacktest", (172:ℚ), 172)] ∧
    c3Samples.getLast?.map Prod.snd = some (180:ℚ) ∧ (172:ℚ) ≠ 180 :=
  ⟨by decide, by decide, by norm_num⟩

theorem C3_amended_witness :
    (endOfBacktestClose 0 initState).activeTrades1 = none ∧
    (endOfBacktestClose 0 initState).activeTrades2 = none :=
  (C3_amended 0 initState).2
    ⟨fun tr h => by simp [initState] at h, fun tr h => by simp [initState] at h⟩

/-- C5 counterexample: a new adverse extreme refreshes the time-decay clock
(peakTime), so although 20 minutes have passed since the latest favorable
extreme of trC5 (at least the 16-minute threshold of its band), the engine
does not close the trade at minute 20. -/
theorem C5_counterexample :
    (16:ℤ) ≤ minutes_diff trC5.favTime 20 ∧ 45 ≤ trC5.finalDist ∧ trC5.finalDist < 70 ∧
    isTimeClose (manage_one 20 98 trC5) = false ∧
    manage_one 20 98 trC5 = ManageOutcome.keep trC5up := by decide

theorem C5_amended_witness : isTimeClose (manage_one 40 100 trC5w) = true :=
  (C5_amended 40 100 trC5w (by decide) (by decide) rfl).mpr (by decide)

theorem C6_sweep_raises_witness :
    check_sweeps 620 280 exC6 =
      Except.error "TypeError: close_trade missing 1 required positional argument: dt" :=
  C6_sweep_raises 620 280 100 exC6 trC6 rfl rfl rfl rfl rfl (by decide)

/-- C8 counterexample: a trade opened on day 0 is still open when the first
sample of day 1 arrives; handle_daily_reset empties the slots, so the run
ends with one opened trade and zero closed records. -/
theorem C8_counterexample :
    (run_backtest c8Samples).map (fun s => (s.openedCount, s.closedTrades.length))
      = Except.ok (1, 0) := by decide

theorem C8_amended_witness : initState.openedCount = initState.closedTrades.length :=
  C8_amended [] 0 (by simp) initState rfl

theorem C9_determinism_witness :
    (run_backtest_from initState []).map EngineState.closedTrades =
    (run_backtest_from initState []).map EngineState.closedTrades :=
  C9_determinism [] initState initState rfl rfl

end MQ4
